import Mathlib

/-!
Verification of the EventX frontend (src/Frontend/src/Calendar.jsx and
src/Frontend/src/App.jsx).

The two components are embedded shallowly: all component state lives in
explicit record types, every handler becomes a pure function from the
outcome of its awaited requests and the current state to the next state,
and the JS Date library (which is not part of src/) is modelled over a
civil-calendar date type.
-/

/-- Civil (proleptic Gregorian) calendar date in the JS Date convention:
the month index is 0-based (0 = January, 11 = December) and the day of the
month is 1-based. -/
structure CivilDate where
  year : Int
  month : Nat
  day : Nat
  deriving Repr, DecidableEq

/-- Modelled from the spec: the Gregorian leap-year rule of the glossary
entry "Civil calendar: the conventional Gregorian calendar used to compute
month lengths and weekday offsets, including leap-year rules".  The JS Date
library implementing it is not part of src/. -/
def isLeap (y : Int) : Bool :=
  (y % 4 == 0 && y % 100 != 0) || y % 400 == 0

/-- Modelled from the spec: the civil day count of a month (month index
0-based as in JS Date), leap-year aware for February. -/
def daysInMonthCivil (y : Int) (m : Nat) : Nat :=
  match m with
  | 0 => 31
  | 1 => if isLeap y then 29 else 28
  | 2 => 31
  | 3 => 30
  | 4 => 31
  | 5 => 30
  | 6 => 31
  | 7 => 31
  | 8 => 30
  | 9 => 31
  | 10 => 30
  | _ => 31

/-- Models the day number (days since the Unix epoch 1970-01-01) that the
JS Date library associates to a civil date; the library itself is not part
of src/.  Standard era/year-of-era decomposition of the Gregorian calendar,
with the year taken to start in March so leap days fall at the end. -/
def daysFromCivil (d : CivilDate) : Int :=
  let yAdj : Int := if d.month < 2 then d.year - 1 else d.year
  let mp : Int := ((d.month : Int) + 10) % 12
  let era : Int := yAdj / 400
  let yoe : Int := yAdj % 400
  let doy : Int := (153 * mp + 2) / 5 + (d.day : Int) - 1
  let doe : Int := yoe * 365 + yoe / 4 - yoe / 100 + doy
  era * 146097 + doe - 719468

/-- Models Date.prototype.getDay: weekday index with 0 = Sunday.  The Unix
epoch 1970-01-01 was a Thursday, hence the offset 4. -/
def jsGetDay (d : CivilDate) : Nat :=
  ((daysFromCivil d + 4) % 7).toNat

/-- Models the JS constructor new Date(year, month, day): a month argument
outside 0..11 rolls into the year (floored division, so month -1 is December
of the prior year and month 12 is January of the next), and a day argument
of 0 denotes the last day of the month before the normalized month.  This
covers every argument shape Calendar.jsx uses: day 0 in getDaysInMonth, an
omitted day (which JS defaults to 1) in prevMonth/nextMonth, and a clicked
day between 1 and the days in the displayed month. -/
def jsMakeDate (y m dayArg : Int) : CivilDate :=
  let ny : Int := y + m / 12
  let nm : Nat := (m % 12).toNat
  if dayArg = 0 then
    if nm = 0 then ⟨ny - 1, 11, 31⟩
    else ⟨ny, nm - 1, daysInMonthCivil ny (nm - 1)⟩
  else ⟨ny, nm, dayArg.toNat⟩

/-- Models the comparison a.toDateString() === b.toDateString() from
Calendar.jsx line 129.  toDateString renders weekday name, month name,
zero-padded day and year of the receiver in local time, so two civil dates
produce the same string exactly when they are the same calendar date. -/
def jsSameDateString (a b : CivilDate) : Bool :=
  a == b

/-- Modelled from the spec: "firstWeekdayOffset = weekday index (0=Sunday)
of day 1".  Independent reference formula for the civil weekday, via the
Gregorian case of Zeller's congruence (month index 0-based as in JS Date);
used as the spec-side meaning of "weekday index" against which the code's
getDay-based offset is compared. -/
def specWeekday (y : Int) (m : Nat) (day : Nat) : Nat :=
  let mz : Int := if m < 2 then (m : Int) + 13 else (m : Int) + 1
  let yz : Int := if m < 2 then y - 1 else y
  let K : Int := yz % 100
  let J : Int := yz / 100
  let h : Int := ((day : Int) + (13 * (mz + 1)) / 5 + K + K / 4 + J / 4 + 5 * J) % 7
  ((h + 6) % 7).toNat

/-- JS truthiness of an optional string: undefined (none) and the empty
string are falsy, every other string is truthy. -/
def truthyStr (s : Option String) : Bool :=
  match s with
  | none => false
  | some str => str != ""

/-- The start field of a fetched calendar event (spec section 3): an
all-day event carries date = "YYYY-MM-DD", a timed event carries an ISO
8601 dateTime string. -/
structure EventStart where
  date : Option String
  dateTime : Option String
  deriving Repr, DecidableEq

/-- A CalendarEvent as fetched from GET /calendar/events (spec section 3);
every field may be absent, and Calendar.jsx reads start through optional
chaining, so start itself is optional. -/
structure CalendarEvent where
  id : Option String
  summary : Option String
  start : Option EventStart
  location : Option String
  deriving Repr, DecidableEq

/-- State of the Calendar component (Calendar.jsx lines 6-9): the displayed
month lives in currentDate, the selected day in selectedDate (initialized
to today and always set by handleDateClick, never null), the fetched events
in allEvents and the in-flight flag in loading. -/
structure CalendarState where
  currentDate : CivilDate
  selectedDate : CivilDate
  allEvents : List CalendarEvent
  loading : Bool
  deriving Repr, DecidableEq

/-- getDaysInMonth (Calendar.jsx lines 16-20): new Date(year, month + 1, 0)
is the day-0 trick, and getDate reads its day of month. -/
def getDaysInMonth (d : CivilDate) : Nat :=
  (jsMakeDate d.year ((d.month : Int) + 1) 0).day

/-- getFirstDayOfMonth (Calendar.jsx lines 22-26): the getDay weekday of
new Date(year, month, 1). -/
def getFirstDayOfMonth (d : CivilDate) : Nat :=
  jsGetDay (jsMakeDate d.year (d.month : Int) 1)

/-- prevMonth (Calendar.jsx lines 28-30): setCurrentDate(new Date(year,
month - 1)); the omitted day argument defaults to 1. -/
def prevMonth (s : CalendarState) : CalendarState :=
  { s with currentDate := jsMakeDate s.currentDate.year ((s.currentDate.month : Int) - 1) 1 }

/-- nextMonth (Calendar.jsx lines 32-34): setCurrentDate(new Date(year,
month + 1)); the omitted day argument defaults to 1. -/
def nextMonth (s : CalendarState) : CalendarState :=
  { s with currentDate := jsMakeDate s.currentDate.year ((s.currentDate.month : Int) + 1) 1 }

/-- isToday (Calendar.jsx lines 36-43); the real current date (new Date()
inside the function) is passed explicitly as today. -/
def isToday (today : CivilDate) (s : CalendarState) (day : Nat) : Bool :=
  day == today.day && s.currentDate.month == today.month
    && s.currentDate.year == today.year

/-- isSelected (Calendar.jsx lines 45-52); selectedDate is never null in
this embedding (see CalendarState), so the early false return is dropped. -/
def isSelected (s : CalendarState) (day : Nat) : Bool :=
  day == s.selectedDate.day && s.currentDate.month == s.selectedDate.month
    && s.currentDate.year == s.selectedDate.year

/-- handleDateClick (Calendar.jsx lines 54-56): selects the clicked day
within the currently displayed month and year. -/
def handleDateClick (s : CalendarState) (day : Nat) : CalendarState :=
  { s with selectedDate := jsMakeDate s.currentDate.year (s.currentDate.month : Int) (day : Int) }

/-- One cell of the rendered month grid: either an empty leading
placeholder or a numbered day cell with its today/selected marks. -/
inductive CalendarCell where
  | empty : CalendarCell
  | day (n : Nat) (todayMark : Bool) (selectedMark : Bool) : CalendarCell
  deriving Repr, DecidableEq

/-- renderCalendar (Calendar.jsx lines 58-80): firstDay empty placeholder
cells followed by one cell per day 1..daysInMonth, each carrying its
isToday and isSelected marks. -/
def renderCalendar (today : CivilDate) (s : CalendarState) : List CalendarCell :=
  let daysInMonth := getDaysInMonth s.currentDate
  let firstDay := getFirstDayOfMonth s.currentDate
  List.replicate firstDay CalendarCell.empty
    ++ (List.range daysInMonth).map
        (fun i => CalendarCell.day (i + 1) (isToday today s (i + 1)) (isSelected s (i + 1)))

/-- A failed network request as observed by a catch block; detail models
error.response?.data?.detail, which is absent for transport failures. -/
structure ApiError where
  detail : Option String
  deriving Repr, DecidableEq

/-- fetchEvents (Calendar.jsx lines 83-95).  The outcome of the awaited
GET /calendar/events is passed explicitly: on success the payload
response.data may be absent and defaults to []; on failure the catch logs
and resets allEvents to []; the finally always clears loading.  The
function is total into CalendarState, so no exception escapes it. -/
def fetchEvents (response : Except ApiError (Option (List CalendarEvent)))
    (s : CalendarState) : CalendarState :=
  let s1 := { s with loading := true }
  let s2 :=
    match response with
    | Except.ok data => { s1 with allEvents := data.getD [] }
    | Except.error _ => { s1 with allEvents := [] }
  { s2 with loading := false }

/-- String(n).padStart(2, "0") as used on the month and day numbers in
getEventsForDate (Calendar.jsx lines 119-121). -/
def padStart2 (s : String) : String :=
  if s.length < 2 then String.mk (List.replicate (2 - s.length) '0') ++ s else s

/-- The local "YYYY-MM-DD" key dateYMD built in getEventsForDate
(Calendar.jsx lines 119-121) from the selected date. -/
def dateKeyOf (d : CivilDate) : String :=
  toString d.year ++ "-" ++ padStart2 (toString (d.month + 1)) ++ "-" ++ padStart2 (toString d.day)

/-- The filter predicate of getEventsForDate (Calendar.jsx lines 123-132):
a truthy event.start?.date is compared to the dateYMD key and decides the
match alone; otherwise a truthy event.start?.dateTime is parsed and its
local calendar date compared to the selected date; an event with neither
returns false.  parseLocal models new Date(isoString) read in the viewer's
local timezone. -/
def eventMatches (parseLocal : String → CivilDate) (d : CivilDate) (e : CalendarEvent) : Bool :=
  let dOpt := e.start.bind EventStart.date
  let dtOpt := e.start.bind EventStart.dateTime
  if truthyStr dOpt then dOpt.getD "" == dateKeyOf d
  else if truthyStr dtOpt then jsSameDateString (parseLocal (dtOpt.getD "")) d
  else false

/-- getEventsForDate (Calendar.jsx lines 116-133): [] for a missing date,
otherwise the filter of allEvents by the matching predicate. -/
def getEventsForDate (parseLocal : String → CivilDate) (events : List CalendarEvent)
    (date : Option CivilDate) : List CalendarEvent :=
  match date with
  | none => []
  | some d => List.filter (eventMatches parseLocal d) events

/-- One rendered row of the selected-day event list. -/
structure EventRow where
  title : String
  timeLabel : Option String
  allDayShown : Bool
  deriving Repr, DecidableEq

/-- The row rendered for one matched event (Calendar.jsx lines 184-194):
the title falls back to "(No title)" for an absent or empty summary (JS ||
treats the empty string as falsy); the time line renders exactly when
event.start?.dateTime is truthy, showing its formatted local time
(formatTime models toLocaleTimeString of the parsed date); the "All day"
line renders exactly when event.start?.date is truthy.  The two conditions
are independent in the JSX. -/
def renderEventRow (formatTime : String → String) (e : CalendarEvent) : EventRow :=
  { title := if truthyStr e.summary then e.summary.getD "" else "(No title)"
  , timeLabel :=
      if truthyStr (e.start.bind EventStart.dateTime)
      then some (formatTime ((e.start.bind EventStart.dateTime).getD "")) else none
  , allDayShown := truthyStr (e.start.bind EventStart.date) }

/-- A prevMonth or nextMonth button press. -/
inductive NavAction where
  | prev : NavAction
  | next : NavAction
  deriving Repr, DecidableEq

/-- One navigation button press applied to the component state. -/
def applyNav (a : NavAction) (s : CalendarState) : CalendarState :=
  match a with
  | NavAction.prev => prevMonth s
  | NavAction.next => nextMonth s

/-- A sequence of navigation button presses applied left to right. -/
def applyNavs (acts : List NavAction) (s : CalendarState) : CalendarState :=
  match acts with
  | [] => s
  | a :: rest => applyNavs rest (applyNav a s)

/-- Payload of GET /auth/status; statusRes.data?.authenticated is read with
optional chaining, so the flag is optional (an absent flag is falsy). -/
structure StatusData where
  authenticated : Option Bool
  deriving Repr, DecidableEq

/-- Payload of GET /user/me; userRes.data?.email is read with optional
chaining and nullish coalescing, so the email is optional. -/
structure UserData where
  email : Option String
  deriving Repr, DecidableEq

/-- State of the App shell (App.jsx lines 10-13). -/
structure AuthState where
  isAuthenticated : Bool
  userEmail : String
  isCheckingAuth : Bool
  authError : String
  deriving Repr, DecidableEq

/-- checkAuthStatus (App.jsx lines 18-46).  The outcomes of the two awaited
requests are passed explicitly.  The body first sets isCheckingAuth and
clears authError; a failing status request takes the outer catch (anonymous
state, detail-or-fallback message); a positive status flag triggers the
profile request, whose success stores the email and authenticates (the
early return skips the trailing resets), and whose failure sets the
profile-specific message and then falls through to the trailing anonymous
resets; a non-positive flag just falls through to those resets.  The
finally always clears isCheckingAuth. -/
def checkAuthStatus (status : Except ApiError StatusData)
    (profile : Except ApiError UserData) (s : AuthState) : AuthState :=
  let s0 := { s with isCheckingAuth := true, authError := "" }
  let s1 :=
    match status with
    | Except.error e =>
        { s0 with isAuthenticated := false, userEmail := "",
                  authError := e.detail.getD "Authentication check failed" }
    | Except.ok st =>
        if st.authenticated.getD false then
          match profile with
          | Except.ok u =>
              { s0 with userEmail := u.email.getD "", isAuthenticated := true }
          | Except.error e =>
              { s0 with authError := e.detail.getD "Unable to load user profile",
                        isAuthenticated := false, userEmail := "" }
        else
          { s0 with isAuthenticated := false, userEmail := "" }
  { s1 with isCheckingAuth := false }

/-- The part of handleLogout (App.jsx lines 54-62) before the re-check: a
failing logout post sets its error message in the catch, and the finally
unconditionally clears the local auth state to anonymous. -/
def logoutCleared (logoutRes : Except ApiError Unit) (s : AuthState) : AuthState :=
  let s0 :=
    match logoutRes with
    | Except.ok _ => s
    | Except.error e => { s with authError := e.detail.getD "Logout failed" }
  { s0 with isAuthenticated := false, userEmail := "" }

/-- handleLogout (App.jsx lines 54-65): after the unconditional clearing,
the finally re-runs checkAuthStatus, whose request outcomes are passed
explicitly. -/
def handleLogout (logoutRes : Except ApiError Unit)
    (status : Except ApiError StatusData) (profile : Except ApiError UserData)
    (s : AuthState) : AuthState :=
  checkAuthStatus status profile (logoutCleared logoutRes s)

/-- The matching rule exactly as the spec sentence states it: an event
matches iff it has an all-day start.date equal to the dateKey, or it has a
timed start.dateTime whose local calendar date equals the selected date --
an unguarded disjunction over the two fields. -/
def specMatchesDisj (parseLocal : String → CivilDate) (d : CivilDate) (e : CalendarEvent) : Bool :=
  (truthyStr (e.start.bind EventStart.date)
      && ((e.start.bind EventStart.date).getD "" == dateKeyOf d))
  || (truthyStr (e.start.bind EventStart.dateTime)
      && jsSameDateString (parseLocal ((e.start.bind EventStart.dateTime).getD "")) d)

/-- The amended matching rule: a populated start.date takes precedence and
decides the match alone; the timed field is consulted only when start.date
is not populated; an event lacking both never matches. -/
def specMatchesAmended (parseLocal : String → CivilDate) (d : CivilDate) (e : CalendarEvent) : Bool :=
  (truthyStr (e.start.bind EventStart.date)
      && ((e.start.bind EventStart.date).getD "" == dateKeyOf d))
  || (!truthyStr (e.start.bind EventStart.date)
      && truthyStr (e.start.bind EventStart.dateTime)
      && jsSameDateString (parseLocal ((e.start.bind EventStart.dateTime).getD "")) d)

/-- Reads a decimal number from a list of characters. -/
def digitsToNat (cs : List Char) : Nat :=
  cs.foldl (fun a c => a * 10 + (c.toNat - 48)) 0

/-- A concrete local-time parse used in witnesses and counterexamples: it
reads the leading "YYYY-MM-DD" of an ISO string, which is how new Date
behaves for a viewer in the UTC timezone. -/
def parseLocalUTC (iso : String) : CivilDate :=
  let cs := iso.data
  ⟨(digitsToNat (cs.take 4) : Int), digitsToNat ((cs.drop 5).take 2) - 1,
    digitsToNat ((cs.drop 8).take 2)⟩

/-- March 5, 2024 (month index 2) as a selected date for concrete checks. -/
def march5 : CivilDate := ⟨2024, 2, 5⟩

/-- An event whose all-day date names March 4 while its timed dateTime
falls on March 5: under the spec's unguarded disjunction it matches a
March 5 selection, but the code consults only start.date. -/
def clashEvent : CalendarEvent :=
  { id := some "e-clash", summary := some "clash",
    start := some { date := some "2024-03-04", dateTime := some "2024-03-05T10:00:00" },
    location := none }

/-- An event with both start.date and start.dateTime populated on the same
day, the shape the data model says should not occur. -/
def bothEvent : CalendarEvent :=
  { id := some "e-both", summary := some "standup",
    start := some { date := some "2024-03-05", dateTime := some "2024-03-05T10:00:00" },
    location := none }

/-- A well-formed all-day event on March 5, 2024. -/
def allDayEvent : CalendarEvent :=
  { id := some "e-allday", summary := some "holiday",
    start := some { date := some "2024-03-05", dateTime := none },
    location := none }

/-- A well-formed timed event on March 5, 2024. -/
def timedEvent : CalendarEvent :=
  { id := some "e-timed", summary := none,
    start := some { date := none, dateTime := some "2024-03-05T18:30:00" },
    location := some "room 1" }

/-- An event lacking both start fields. -/
def bareEvent : CalendarEvent :=
  { id := some "e-bare", summary := some "draft",
    start := some { date := none, dateTime := none },
    location := none }

/-- Linearized month counter of a displayed date, used to reason about
navigation: twelve months per year. -/
def monthIdx (d : CivilDate) : Int :=
  d.year * 12 + (d.month : Int)

/-- A fixed "real current date" for concrete checks: October 11, 2026. -/
def wToday : CivilDate := ⟨2026, 9, 11⟩

/-- A concrete component state displaying February 2024. -/
def febState : CalendarState :=
  { currentDate := ⟨2024, 1, 15⟩, selectedDate := ⟨2024, 1, 10⟩,
    allEvents := [], loading := false }

/-- A concrete component state displaying December 2025, to exercise the
year wrap. -/
def decState : CalendarState :=
  { currentDate := ⟨2025, 11, 3⟩, selectedDate := ⟨2025, 11, 3⟩,
    allEvents := [], loading := false }

/-- The initial App shell state (App.jsx lines 10-13). -/
def initAuth : AuthState :=
  { isAuthenticated := false, userEmail := "", isCheckingAuth := true, authError := "" }

/-- Year terms of the era-based day count and of Zeller's congruence agree
modulo 7; the explicit quotient decompositions guide the arithmetic. -/
theorem yearTermCongr (Y : Int) :
    (Y % 400 + (Y % 400) / 4 - (Y % 400) / 100) % 7
      = (Y % 100 + (Y % 100) / 4 + (Y / 100) / 4 + 5 * (Y / 100) + 21 * (Y / 400)) % 7 := by
  have hq : Y = 400 * (Y / 400) + 100 * ((Y % 400) / 100) + (Y % 100) := by omega
  have h3 : Y / 100 = 4 * (Y / 400) + (Y % 400) / 100 := by omega
  have h5 : (Y % 400) / 4 = 25 * ((Y % 400) / 100) + (Y % 100) / 4 := by omega
  have h7 : (Y / 100) / 4 = Y / 400 := by omega
  generalize Y / 400 = q at *
  omega

/-- The getDay model agrees with Zeller's congruence on every civil date
with a normalized month index. -/
theorem jsGetDay_zeller (y : Int) (m day : Nat) (hm : m ≤ 11) :
    jsGetDay ⟨y, m, day⟩ = specWeekday y m day := by
  have H0 := yearTermCongr y
  have H1 := yearTermCongr (y - 1)
  unfold jsGetDay specWeekday daysFromCivil
  interval_cases m <;> norm_num <;> omega

/-- With a normalized month index and day 1, the JS constructor performs
no normalization. -/
theorem jsMakeDate_day1 (y : Int) (m : Nat) (hm : m ≤ 11) :
    jsMakeDate y (m : Int) 1 = ⟨y, m, 1⟩ := by
  unfold jsMakeDate
  simp only [CivilDate.mk.injEq, if_neg one_ne_zero]
  refine ⟨by omega, by omega, rfl⟩

/-- The day-0 trick: for a normalized month index, new Date(year, month + 1, 0)
lands on the last day of the given month, so getDaysInMonth returns the
civil day count. -/
theorem getDaysInMonth_civil (d : CivilDate) (hm : d.month ≤ 11) :
    getDaysInMonth d = daysInMonthCivil d.year d.month := by
  obtain ⟨y, m, dd⟩ := d
  simp only at hm
  unfold getDaysInMonth jsMakeDate
  interval_cases m <;> simp [daysInMonthCivil]

/-- The rendered first-weekday offset is the Zeller weekday of day 1 of the
displayed month. -/
theorem getFirstDayOfMonth_zeller (d : CivilDate) (hm : d.month ≤ 11) :
    getFirstDayOfMonth d = specWeekday d.year d.month 1 := by
  unfold getFirstDayOfMonth
  rw [jsMakeDate_day1 d.year d.month hm]
  exact jsGetDay_zeller d.year d.month 1 hm

/-- nextMonth advances the linear month counter by one. -/
theorem monthIdx_nextMonth (s : CalendarState) :
    monthIdx (nextMonth s).currentDate = monthIdx s.currentDate + 1 := by
  unfold nextMonth jsMakeDate monthIdx
  simp only [if_neg one_ne_zero]
  omega

/-- prevMonth moves the linear month counter back by one. -/
theorem monthIdx_prevMonth (s : CalendarState) :
    monthIdx (prevMonth s).currentDate = monthIdx s.currentDate - 1 := by
  unfold prevMonth jsMakeDate monthIdx
  simp only [if_neg one_ne_zero]
  omega

/-- Navigation always leaves a normalized month index. -/
theorem applyNav_month_le (a : NavAction) (s : CalendarState) :
    (applyNav a s).currentDate.month ≤ 11 := by
  cases a with
  | prev =>
      simp only [applyNav]
      unfold prevMonth jsMakeDate
      simp only [if_neg one_ne_zero]
      omega
  | next =>
      simp only [applyNav]
      unfold nextMonth jsMakeDate
      simp only [if_neg one_ne_zero]
      omega

/-- A run of n nextMonth presses advances the month counter by n. -/
theorem monthIdx_applyNavs_next (n : Nat) (s : CalendarState) :
    monthIdx (applyNavs (List.replicate n NavAction.next) s).currentDate
      = monthIdx s.currentDate + n := by
  induction n generalizing s with
  | zero => simp [applyNavs]
  | succ k ih =>
      rw [List.replicate_succ]
      show monthIdx (applyNavs (List.replicate k NavAction.next) (applyNav NavAction.next s)).currentDate = _
      rw [ih]
      simp only [applyNav]
      rw [monthIdx_nextMonth]
      omega

/-- A run of n prevMonth presses moves the month counter back by n. -/
theorem monthIdx_applyNavs_prev (n : Nat) (s : CalendarState) :
    monthIdx (applyNavs (List.replicate n NavAction.prev) s).currentDate
      = monthIdx s.currentDate - n := by
  induction n generalizing s with
  | zero => simp [applyNavs]
  | succ k ih =>
      rw [List.replicate_succ]
      show monthIdx (applyNavs (List.replicate k NavAction.prev) (applyNav NavAction.prev s)).currentDate = _
      rw [ih]
      simp only [applyNav]
      rw [monthIdx_prevMonth]
      omega

/-- A nonempty run of navigation presses ends on a normalized month index. -/
theorem applyNavs_month_le (acts : List NavAction) (s : CalendarState) (h : acts ≠ []) :
    (applyNavs acts s).currentDate.month ≤ 11 := by
  induction acts generalizing s with
  | nil => exact absurd rfl h
  | cons a rest ih =>
      cases rest with
      | nil => exact applyNav_month_le a s
      | cons b r2 =>
          show (applyNavs (b :: r2) (applyNav a s)).currentDate.month ≤ 11
          exact ih (applyNav a s) (by simp)

/-- C2: for every displayed month (its month index is normalized to 0..11
by construction), daysInMonth is the civil leap-year-aware day count of the
month, the first-weekday offset is the civil weekday (0 = Sunday, computed
independently by Zeller's congruence) of day 1, and the rendered grid is
exactly that many empty placeholder cells followed by one cell per day
1..daysInMonth. -/
theorem c2_month_grid (today : CivilDate) (s : CalendarState)
    (hm : s.currentDate.month ≤ 11) :
    getDaysInMonth s.currentDate = daysInMonthCivil s.currentDate.year s.currentDate.month
    ∧ getFirstDayOfMonth s.currentDate = specWeekday s.currentDate.year s.currentDate.month 1
    ∧ renderCalendar today s =
        List.replicate (getFirstDayOfMonth s.currentDate) CalendarCell.empty
          ++ (List.range (daysInMonthCivil s.currentDate.year s.currentDate.month)).map
              (fun i => CalendarCell.day (i + 1) (isToday today s (i + 1)) (isSelected s (i + 1))) := by
  refine ⟨getDaysInMonth_civil _ hm, getFirstDayOfMonth_zeller _ hm, ?_⟩
  unfold renderCalendar
  rw [getDaysInMonth_civil _ hm]

/-- C2 witness: concrete checks on February 2024 (29 days, first weekday
Thursday = 4) and February 2023 (28 days), plus the theorem applied to the
February 2024 state. -/
theorem c2_month_grid_witness :
    (getDaysInMonth ⟨2024, 1, 1⟩ = 29 ∧ getFirstDayOfMonth ⟨2024, 1, 1⟩ = 4
      ∧ getDaysInMonth ⟨2023, 1, 1⟩ = 28 ∧ getDaysInMonth ⟨2000, 1, 1⟩ = 29
      ∧ getDaysInMonth ⟨1900, 1, 1⟩ = 28)
    ∧ (getDaysInMonth febState.currentDate
          = daysInMonthCivil febState.currentDate.year febState.currentDate.month
        ∧ getFirstDayOfMonth febState.currentDate
          = specWeekday febState.currentDate.year febState.currentDate.month 1
        ∧ renderCalendar wToday febState =
            List.replicate (getFirstDayOfMonth febState.currentDate) CalendarCell.empty
              ++ (List.range (daysInMonthCivil febState.currentDate.year febState.currentDate.month)).map
                  (fun i => CalendarCell.day (i + 1) (isToday wToday febState (i + 1))
                      (isSelected febState (i + 1)))) :=
  ⟨by decide, c2_month_grid wToday febState (by decide)⟩

/-- C3: nextMonth advances the displayed month by one with December
wrapping to January of the next year, prevMonth moves it back by one with
January wrapping to December of the prior year, and twelve presses forward
followed by twelve presses back (in either order) restore the original
displayed month and year. -/
theorem c3_navigation (s : CalendarState) (hm : s.currentDate.month ≤ 11) :
    (nextMonth s).currentDate.month
        = (if s.currentDate.month = 11 then 0 else s.currentDate.month + 1)
    ∧ (nextMonth s).currentDate.year
        = (if s.currentDate.month = 11 then s.currentDate.year + 1 else s.currentDate.year)
    ∧ (prevMonth s).currentDate.month
        = (if s.currentDate.month = 0 then 11 else s.currentDate.month - 1)
    ∧ (prevMonth s).currentDate.year
        = (if s.currentDate.month = 0 then s.currentDate.year - 1 else s.currentDate.year)
    ∧ (applyNavs (List.replicate 12 NavAction.prev)
        (applyNavs (List.replicate 12 NavAction.next) s)).currentDate.month = s.currentDate.month
    ∧ (applyNavs (List.replicate 12 NavAction.prev)
        (applyNavs (List.replicate 12 NavAction.next) s)).currentDate.year = s.currentDate.year
    ∧ (applyNavs (List.replicate 12 NavAction.next)
        (applyNavs (List.replicate 12 NavAction.prev) s)).currentDate.month = s.currentDate.month
    ∧ (applyNavs (List.replicate 12 NavAction.next)
        (applyNavs (List.replicate 12 NavAction.prev) s)).currentDate.year = s.currentDate.year := by
  have hA := monthIdx_applyNavs_next 12 s
  have hB := monthIdx_applyNavs_prev 12 (applyNavs (List.replicate 12 NavAction.next) s)
  have hC := monthIdx_applyNavs_prev 12 s
  have hD := monthIdx_applyNavs_next 12 (applyNavs (List.replicate 12 NavAction.prev) s)
  have hm1 := applyNavs_month_le (List.replicate 12 NavAction.prev)
    (applyNavs (List.replicate 12 NavAction.next) s) (by simp)
  have hm2 := applyNavs_month_le (List.replicate 12 NavAction.next)
    (applyNavs (List.replicate 12 NavAction.prev) s) (by simp)
  unfold monthIdx at hA hB hC hD
  refine ⟨?_, ?_, ?_, ?_, by omega, by omega, by omega, by omega⟩
  · unfold nextMonth jsMakeDate
    simp only [if_neg one_ne_zero]
    split_ifs <;> omega
  · unfold nextMonth jsMakeDate
    simp only [if_neg one_ne_zero]
    split_ifs <;> omega
  · unfold prevMonth jsMakeDate
    simp only [if_neg one_ne_zero]
    split_ifs <;> omega
  · unfold prevMonth jsMakeDate
    simp only [if_neg one_ne_zero]
    split_ifs <;> omega

/-- C3 witness: the theorem applied to a December 2025 display, together
with directly evaluated wrap checks on that state. -/
theorem c3_navigation_witness :
    ((nextMonth decState).currentDate.month = 0
      ∧ (nextMonth decState).currentDate.year = 2026
      ∧ (prevMonth decState).currentDate.month = 10
      ∧ (prevMonth decState).currentDate.year = 2025)
    ∧ ((nextMonth decState).currentDate.month
          = (if decState.currentDate.month = 11 then 0 else decState.currentDate.month + 1)
        ∧ (nextMonth decState).currentDate.year
          = (if decState.currentDate.month = 11 then decState.currentDate.year + 1
              else decState.currentDate.year)
        ∧ (prevMonth decState).currentDate.month
          = (if decState.currentDate.month = 0 then 11 else decState.currentDate.month - 1)
        ∧ (prevMonth decState).currentDate.year
          = (if decState.currentDate.month = 0 then decState.currentDate.year - 1
              else decState.currentDate.year)
        ∧ (applyNavs (List.replicate 12 NavAction.prev)
            (applyNavs (List.replicate 12 NavAction.next) decState)).currentDate.month
          = decState.currentDate.month
        ∧ (applyNavs (List.replicate 12 NavAction.prev)
            (applyNavs (List.replicate 12 NavAction.next) decState)).currentDate.year
          = decState.currentDate.year
        ∧ (applyNavs (List.replicate 12 NavAction.next)
            (applyNavs (List.replicate 12 NavAction.prev) decState)).currentDate.month
          = decState.currentDate.month
        ∧ (applyNavs (List.replicate 12 NavAction.next)
            (applyNavs (List.replicate 12 NavAction.prev) decState)).currentDate.year
          = decState.currentDate.year) :=
  ⟨by decide, c3_navigation decState (by decide)⟩

/-- C8: a day cell is marked today exactly when its day number together
with the displayed month and year equals the real current date. -/
theorem c8_isToday_iff (today : CivilDate) (s : CalendarState) (day : Nat) :
    isToday today s day = true
      ↔ (day = today.day ∧ s.currentDate.month = today.month
          ∧ s.currentDate.year = today.year) := by
  simp [isToday, and_assoc]

/-- C9: navigation button presses never change the selected date, the
fetched events or the loading flag; only the displayed month moves. -/
theorem c9_nav_frame (acts : List NavAction) (s : CalendarState) :
    (applyNavs acts s).selectedDate = s.selectedDate
    ∧ (applyNavs acts s).allEvents = s.allEvents
    ∧ (applyNavs acts s).loading = s.loading := by
  induction acts generalizing s with
  | nil => exact ⟨rfl, rfl, rfl⟩
  | cons a rest ih =>
      have h := ih (applyNav a s)
      cases a <;> simpa [applyNavs, applyNav, prevMonth, nextMonth] using h

/-- C5: a failed event fetch terminates with allEvents = [] and
loading = false; fetchEvents is a total function into the component state
(the catch swallows the error and only logs it), so no error escapes. -/
theorem c5_fetch_failure (err : ApiError) (s : CalendarState) :
    (fetchEvents (Except.error err) s).allEvents = []
    ∧ (fetchEvents (Except.error err) s).loading = false := by
  exact ⟨rfl, rfl⟩

/-- C6: a positive auth status followed by a failing profile fetch yields
the anonymous state with the profile-specific message (the failing
response's detail field, or the profile fallback), not the auth-status
fallback, and the checking flag cleared. -/
theorem c6_profile_failure (st : StatusData) (err : ApiError) (s : AuthState)
    (hauth : st.authenticated = some true) :
    (checkAuthStatus (Except.ok st) (Except.error err) s).isAuthenticated = false
    ∧ (checkAuthStatus (Except.ok st) (Except.error err) s).userEmail = ""
    ∧ (checkAuthStatus (Except.ok st) (Except.error err) s).authError
        = err.detail.getD "Unable to load user profile"
    ∧ (checkAuthStatus (Except.ok st) (Except.error err) s).isCheckingAuth = false := by
  simp [checkAuthStatus, hauth]

/-- C6 witness: the theorem applied to a positive status and a profile
failure carrying a detail message, from the initial shell state. -/
theorem c6_profile_failure_witness :
    (checkAuthStatus (Except.ok ⟨some true⟩) (Except.error ⟨some "profile service down"⟩)
        initAuth).isAuthenticated = false
    ∧ (checkAuthStatus (Except.ok ⟨some true⟩) (Except.error ⟨some "profile service down"⟩)
        initAuth).userEmail = ""
    ∧ (checkAuthStatus (Except.ok ⟨some true⟩) (Except.error ⟨some "profile service down"⟩)
        initAuth).authError = "profile service down"
    ∧ (checkAuthStatus (Except.ok ⟨some true⟩) (Except.error ⟨some "profile service down"⟩)
        initAuth).isCheckingAuth = false :=
  c6_profile_failure ⟨some true⟩ ⟨some "profile service down"⟩ initAuth rfl

/-- C7: logout equals the status re-check run from the unconditionally
cleared state, and that cleared state is anonymous with an empty email,
whether the logout call succeeded or failed. -/
theorem c7_logout (logoutRes : Except ApiError Unit)
    (status : Except ApiError StatusData) (profile : Except ApiError UserData)
    (s : AuthState) :
    handleLogout logoutRes status profile s
        = checkAuthStatus status profile (logoutCleared logoutRes s)
    ∧ (logoutCleared logoutRes s).isAuthenticated = false
    ∧ (logoutCleared logoutRes s).userEmail = "" := by
  refine ⟨rfl, ?_, ?_⟩ <;> cases logoutRes <;> rfl

/-- C10: for an event whose start.date is populated, the filter decides by
the all-day rule alone: the result is the comparison of start.date with the
local date key, it does not depend on how dateTime strings are parsed, and
it is unchanged under any replacement of the dateTime field. -/
theorem c10_date_precedence (p1 p2 : String → CivilDate) (d : CivilDate)
    (e : CalendarEvent) (st : EventStart) (ds : String) (dtOther : Option String)
    (hst : e.start = some st) (hdate : st.date = some ds) (hne : ds ≠ "") :
    eventMatches p1 d e = (ds == dateKeyOf d)
    ∧ eventMatches p1 d e = eventMatches p2 d e
    ∧ eventMatches p1 d { e with start := some { st with dateTime := dtOther } }
        = (ds == dateKeyOf d) := by
  refine ⟨?_, ?_, ?_⟩ <;> simp [eventMatches, hst, hdate, truthyStr, hne]

/-- C10 witness: the theorem applied to the both-populated event with two
unrelated parse functions, a March 5 2024 selection, and the dateTime field
dropped in the replacement. -/
theorem c10_date_precedence_witness :
    eventMatches parseLocalUTC march5 bothEvent = ("2024-03-05" == dateKeyOf march5)
    ∧ eventMatches parseLocalUTC march5 bothEvent
        = eventMatches (fun _ => ⟨1970, 0, 1⟩) march5 bothEvent
    ∧ eventMatches parseLocalUTC march5
        { bothEvent with start := some { date := some "2024-03-05", dateTime := none } }
        = ("2024-03-05" == dateKeyOf march5) :=
  c10_date_precedence parseLocalUTC (fun _ => ⟨1970, 0, 1⟩) march5 bothEvent
    ⟨some "2024-03-05", some "2024-03-05T10:00:00"⟩ "2024-03-05" none rfl rfl (by decide)

/-- C1 as frozen is false on the code: clashEvent satisfies the claim's
unguarded disjunction for March 5, 2024 (its timed dateTime falls on that
day under the concrete local parse), yet the filter excludes it, because
its populated start.date takes precedence and names March 4. -/
theorem c1_counterexample :
    specMatchesDisj parseLocalUTC march5 clashEvent = true
    ∧ getEventsForDate parseLocalUTC [clashEvent] (some march5) = [] := by
  exact ⟨by decide, by decide⟩

/-- C1 amended: the filtered list is exactly the subsequence of the fetched
events, in fetch order, matching the precedence rule: a populated
start.date matches iff it equals the local date key (the timed field is not
consulted); otherwise a populated start.dateTime matches iff its local
calendar date is the selected date; and an event lacking both fields never
appears in any filtered list. -/
theorem c1_filter_amended (parseLocal : String → CivilDate) (d : CivilDate)
    (events : List CalendarEvent) (e : CalendarEvent)
    (hdate : e.start.bind EventStart.date = none)
    (hdt : e.start.bind EventStart.dateTime = none) :
    getEventsForDate parseLocal events (some d)
        = List.filter (specMatchesAmended parseLocal d) events
    ∧ (getEventsForDate parseLocal events (some d)).Sublist events
    ∧ e ∉ getEventsForDate parseLocal events (some d) := by
  have hpt : ∀ ev, eventMatches parseLocal d ev = specMatchesAmended parseLocal d ev := by
    intro ev
    unfold eventMatches specMatchesAmended
    cases h1 : truthyStr (ev.start.bind EventStart.date) <;>
      cases h2 : truthyStr (ev.start.bind EventStart.dateTime) <;> simp [h1, h2]
  have hfalse : eventMatches parseLocal d e = false := by
    unfold eventMatches
    simp [hdate, hdt, truthyStr]
  refine ⟨?_, ?_, ?_⟩
  · exact List.filter_congr (fun ev _ => hpt ev)
  · exact List.filter_sublist events
  · intro hmem
    have hmem2 : eventMatches parseLocal d e = true :=
      (List.mem_filter.mp hmem).2
    rw [hfalse] at hmem2
    exact Bool.false_ne_true hmem2

/-- C1 witness: on a four-event fetch (well-formed all-day, well-formed
timed, no start fields, and the clashing malformed event) the filter keeps
exactly the two well-formed March 5 events in fetch order, and the amended
theorem applies with the bare event as the never-matching one. -/
theorem c1_filter_amended_witness :
    getEventsForDate parseLocalUTC [allDayEvent, timedEvent, bareEvent, clashEvent] (some march5)
        = [allDayEvent, timedEvent]
    ∧ (getEventsForDate parseLocalUTC [allDayEvent, timedEvent, bareEvent, clashEvent] (some march5)
        = List.filter (specMatchesAmended parseLocalUTC march5)
            [allDayEvent, timedEvent, bareEvent, clashEvent]
      ∧ (getEventsForDate parseLocalUTC [allDayEvent, timedEvent, bareEvent, clashEvent]
            (some march5)).Sublist [allDayEvent, timedEvent, bareEvent, clashEvent]
      ∧ bareEvent ∉ getEventsForDate parseLocalUTC
            [allDayEvent, timedEvent, bareEvent, clashEvent] (some march5)) :=
  ⟨by decide,
    c1_filter_amended parseLocalUTC march5 [allDayEvent, timedEvent, bareEvent, clashEvent]
      bareEvent rfl rfl⟩

/-- C4 as frozen is false on the code: bothEvent is matched for March 5,
2024, yet its rendered row shows a start time and the All day marker at
once, because the two JSX conditions are independent. -/
theorem c4_counterexample :
    getEventsForDate parseLocalUTC [bothEvent] (some march5) = [bothEvent]
    ∧ (renderEventRow (fun _ => "10:00 AM") bothEvent).timeLabel = some "10:00 AM"
    ∧ (renderEventRow (fun _ => "10:00 AM") bothEvent).allDayShown = true := by
  exact ⟨by decide, by decide, by decide⟩

/-- C4 amended: a matched event's row shows its title with "(No title)"
replacing an absent or empty summary; the time line appears exactly when
start.dateTime is populated and the All day marker exactly when start.date
is populated; hence a matched event with at most one of the two populated
(the only shapes the data model allows) shows exactly one of the two,
never both.  A malformed event with both populated shows both; see the
counterexample. -/
theorem c4_render_amended (formatTime : String → String)
    (parseLocal : String → CivilDate) (d : CivilDate) (e : CalendarEvent)
    (hmatch : eventMatches parseLocal d e = true)
    (hshape : (truthyStr (e.start.bind EventStart.date)
        && truthyStr (e.start.bind EventStart.dateTime)) = false) :
    (renderEventRow formatTime e).title
        = (match e.summary with
           | none => "(No title)"
           | some t => if t = "" then "(No title)" else t)
    ∧ (renderEventRow formatTime e).timeLabel.isSome
        = truthyStr (e.start.bind EventStart.dateTime)
    ∧ (renderEventRow formatTime e).allDayShown
        = truthyStr (e.start.bind EventStart.date)
    ∧ ((renderEventRow formatTime e).timeLabel.isSome
        || (renderEventRow formatTime e).allDayShown) = true
    ∧ ((renderEventRow formatTime e).timeLabel.isSome
        && (renderEventRow formatTime e).allDayShown) = false := by
  have htitle : (renderEventRow formatTime e).title
      = (match e.summary with
         | none => "(No title)"
         | some t => if t = "" then "(No title)" else t) := by
    cases hs : e.summary with
    | none => simp [renderEventRow, truthyStr, hs]
    | some t => by_cases ht : t = "" <;> simp [renderEventRow, truthyStr, hs, ht]
  refine ⟨htitle, ?_, ?_, ?_, ?_⟩ <;>
    cases h1 : truthyStr (e.start.bind EventStart.date) <;>
      cases h2 : truthyStr (e.start.bind EventStart.dateTime) <;>
        simp_all [renderEventRow, eventMatches]

/-- C4 witness: the theorem applied to the well-formed timed event (whose
summary is absent) matched for March 5, 2024. -/
theorem c4_render_amended_witness :
    (renderEventRow (fun _ => "06:30 PM") timedEvent).title = "(No title)"
    ∧ (renderEventRow (fun _ => "06:30 PM") timedEvent).timeLabel.isSome
        = truthyStr (timedEvent.start.bind EventStart.dateTime)
    ∧ (renderEventRow (fun _ => "06:30 PM") timedEvent).allDayShown
        = truthyStr (timedEvent.start.bind EventStart.date)
    ∧ ((renderEventRow (fun _ => "06:30 PM") timedEvent).timeLabel.isSome
        || (renderEventRow (fun _ => "06:30 PM") timedEvent).allDayShown) = true
    ∧ ((renderEventRow (fun _ => "06:30 PM") timedEvent).timeLabel.isSome
        && (renderEventRow (fun _ => "06:30 PM") timedEvent).allDayShown) = false :=
  c4_render_amended (fun _ => "06:30 PM") parseLocalUTC march5 timedEvent
    (by decide) (by decide)
